import Mathlib

/-!
Verification of the libseawolf hub server (ncsurobotics/libseawolf) against
its natural-language specification.

The development is a shallow embedding of the C sources under `src/`:

* C strings are modelled as `List Nat` — the byte values strictly before the
  terminating NUL.  Reading a C string at an index at or past its length is
  modelled as yielding the terminator byte `0`; in the C source such a read
  at index `length` is the terminator itself, and reads strictly past it are
  out of bounds (heap bytes whose value the program cannot rely on).
* Machine integers (`uint16_t` header fields, `htons`/`ntohs`) are `Nat`
  with explicit `% 65536` truncation.
* The `double` values held by hub variables are an arbitrary type parameter
  `V`: the hub only stores, copies and formats them, it never computes with
  them, so no floating-point arithmetic needs to be modelled.  `atof` and
  the `"%f"` formatting of `Util_format`/`snprintf` are likewise abstracted
  as parameters.
* Stateful C functions become state-passing Lean functions; the side effects
  a hub routine performs through other subsystems (socket sends, kicks,
  log lines, persistence signals) are returned as an explicit effect list.
-/

/-- Byte string: the bytes of a NUL-terminated C string, terminator excluded. -/
abbrev CStr := List Nat

/-- Bytes of an ASCII Lean string literal, for writing concrete inputs. -/
def bytes (s : String) : CStr := s.toList.map Char.toNat

/-! ## Message codec (src/src/comm.c) -/

/-- Big-endian byte pair produced by `htons` for a 16-bit header field; the
argument is implicitly truncated to `uint16_t`. -/
def u16be (n : Nat) : List Nat := [n % 65536 / 256, n % 256]

/-- Value read by `ntohs` from two bytes in network byte order. -/
def u16dec (hi lo : Nat) : Nat := hi * 256 + lo

/-- A `Comm_Message`: request id plus the ordered components.  The `count`
field of the C struct always equals the length of the component array, so it
is represented by `components.length`. -/
structure Comm_Message where
  request_id : Nat
  components : List CStr
deriving DecidableEq, Repr

/-- Six bytes of header: data length, request id, component count. -/
def COMM_MESSAGE_PREFIX_LEN : Nat := 6

/-- `Comm_packMessage` (src/src/comm.c:386-416): emit the three header fields
through `htons`, then each component's bytes followed by a single NUL. -/
def Comm_packMessage (m : Comm_Message) : List Nat :=
  let total_data_length := (m.components.map (fun c => c.length + 1)).sum
  u16be total_data_length ++ u16be m.request_id ++ u16be m.components.length
    ++ (m.components.map (fun c => c ++ [0])).flatten

/-- The C string found at the head of a byte buffer: bytes up to the first
NUL (or the end of the modelled buffer). -/
def takeCStr (l : List Nat) : CStr := l.takeWhile (fun b => b ≠ 0)

/-- The component extraction loop of `Comm_unpackMessage`
(src/src/comm.c:442-451): component 0 starts at the head of the payload and
component `i` starts one byte past the NUL ending component `i-1`
(`components[i] = components[i-1] + strlen(components[i-1]) + 1`).
Exactly `count` components are produced, the declared count being trusted. -/
def splitComponents : Nat → List Nat → List CStr
  | 0, _ => []
  | n + 1, l => takeCStr l :: splitComponents n (l.drop ((takeCStr l).length + 1))

/-- `Comm_unpackMessage` (src/src/comm.c:427-453): read the three header
fields, then split the `data-len` payload bytes into the declared number of
components.  No validation of any kind is performed. -/
def Comm_unpackMessage (data : List Nat) : Comm_Message :=
  let data_length := u16dec (data.getD 0 0) (data.getD 1 0)
  let count := u16dec (data.getD 4 0) (data.getD 5 0)
  let payload := (data.drop COMM_MESSAGE_PREFIX_LEN).take data_length
  { request_id := u16dec (data.getD 2 0) (data.getD 3 0)
    components := splitComponents count payload }

/-- The data-length header field of a packed frame. -/
def dataLenField (data : List Nat) : Nat := u16dec (data.getD 0 0) (data.getD 1 0)

/-- The component-count header field of a packed frame. -/
def countField (data : List Nat) : Nat := u16dec (data.getD 4 0) (data.getD 5 0)

/-- Number of NUL terminator bytes present in a payload. -/
def countNuls (l : List Nat) : Nat := l.countP (fun b => b = 0)

/-! ## Client sessions and notification filters (src/src/hub/client.c) -/

/-- The `Hub_Client_State` enum of src/src/hub/seawolf_hub.h. -/
inductive Hub_Client_State where
  | UNKNOWN
  | UNAUTHENTICATED
  | CONNECTED
  | CLOSED
deriving DecidableEq, Repr

/-- The fields of `Hub_Client` the request-processing paths read or write.
A filter is stored by `Hub_Client_addFilter` as one byte of filter kind
followed by the body, modelled as the pair (kind byte, body).
`subscribed_vars` holds the names of the variables the client subscribed to
(the C list holds pointers into the variable store, whose names are unique
keys). -/
structure Hub_Client where
  state : Hub_Client_State
  filters : List (Nat × CStr)
  subscribed_vars : List CStr
deriving DecidableEq, Repr

/-- The `FILTER_PREFIX` arm of `Hub_Client_checkFilters`
(src/src/hub/client.c:124-134), translated loop-for-loop:

    for(int j = 0; message->components[2][j] != 0; j++) {
        if(filter_body[j] == 0) {
            if(message->components[2][j] == ' ') { r = false; }
            else break;
        }
    }

`r` is the accumulator variable of the surrounding filter loop; the function
returns the value of `r` when the loop exits.  The loop index `j` is
represented by the two suffixes `body.drop j` and `fb.drop j`, so the byte
the C code reads as `s[j]` is the head of the suffix, with the NUL
terminator (and the out-of-bounds bytes beyond it) modelled as 0: an empty
suffix reads as the byte 0.  The loop exits returning `r` when the body byte
is NUL; on a NUL filter-body byte it clears `r` and continues if the body
byte is a space (32), and breaks (returning `r`) otherwise.  Note that
this arm assigns only `false` to `r`, never `true`. -/
def prefixFilterLoop : Bool → List Nat → List Nat → Bool
  | r, [], _ => r
  | r, b :: brest, fb =>
      if b = 0 then r
      else if fb.headD 0 = 0 then
        if b = 32 then prefixFilterLoop false brest fb.tail
        else r
      else prefixFilterLoop r brest fb.tail

/-- One iteration of the filter loop of `Hub_Client_checkFilters`
(src/src/hub/client.c:113-142): `r` is the accumulator, `f` the current
filter (kind byte, body).  Kind bytes: `FILTER_MATCH = 1` compares the whole
body with `strcmp`; `FILTER_ACTION = 2` tests `strncmp(B, fb, strlen(fb))`,
i.e. that the filter body is a byte prefix of the message body; kind 3 is the
whole-leading-token filter, the loop above.  Any other kind byte leaves `r`
unchanged (no `switch` case). -/
def checkFilterStep (body : CStr) (r : Bool) (f : Nat × CStr) : Bool :=
  match f.1 with
  | 1 => if body = f.2 then true else r
  | 2 => if f.2.isPrefixOf body then true else r
  | 3 => prefixFilterLoop r body f.2
  | _ => r

/-- `Hub_Client_checkFilters` (src/src/hub/client.c:105-146): starting from
`r = false`, run every filter in insertion order over `message->components[2]`
and return the final `r`. -/
def Hub_Client_checkFilters (client : Hub_Client) (message : Comm_Message) : Bool :=
  client.filters.foldl (checkFilterStep (message.components.getD 2 [])) false

/-- `Hub_Client_addFilter` (src/src/hub/client.c:69-81): append one filter;
the kind is stored as a single `unsigned char`, hence the `% 256`. -/
def Hub_Client_addFilter (client : Hub_Client) (ty : Int) (filter : CStr) : Hub_Client :=
  { client with filters := client.filters ++ [((ty % 256).toNat, filter)] }

/-- `Hub_Client_clearFilters` (src/src/hub/client.c:86-100). -/
def Hub_Client_clearFilters (client : Hub_Client) : Hub_Client :=
  { client with filters := [] }

/-! ## Closed-client queue (src/src/hub/netloop.c) -/

/-- Projection of the hub state that `Hub_Net_markClientClosed` touches for
one session: the session's `state` field and the number of times this
session has been appended to the `closed_clients` queue. -/
structure SessionCloseView where
  state : Hub_Client_State
  enqueued : Nat
deriving DecidableEq, Repr

/-- `Hub_Net_markClientClosed` (src/src/hub/netloop.c:133-140): under
`remove_client_lock`, if the session state is not CLOSED, set it to CLOSED
and append the session to `closed_clients`; otherwise do nothing. -/
def Hub_Net_markClientClosed (s : SessionCloseView) : SessionCloseView :=
  if s.state ≠ Hub_Client_State.CLOSED then
    { state := Hub_Client_State.CLOSED, enqueued := s.enqueued + 1 }
  else s

/-! ## Logging (src/src/hub/logging.c) -/

/-- The module-level logging globals read by the two log entry points.
`log_file_is_stdout` models `log_file_fd == STDOUT_FILENO`. -/
structure LogState where
  min_log_level : Int
  initialized : Bool
  replicate_stdout : Bool
  log_file_is_stdout : Bool
deriving DecidableEq, Repr

/-- One formatted log line `[time][app][level-name] msg`; the wall-clock
timestamp is abstracted away, the severity is kept numeric
(DEBUG=0, INFO=1, NORMAL=2, WARNING=3, ERROR=4, CRITICAL=5). -/
structure LogLine where
  app_name : CStr
  level : Int
  msg : CStr
deriving DecidableEq, Repr

/-- What one call to a logging entry point writes to standard output and to
the log file handle. -/
structure LogWrites where
  to_stdout : Option LogLine
  to_file : Option LogLine
deriving DecidableEq, Repr

/-- `Hub_Logging_logWithName` (src/src/hub/logging.c:107-123): print to
standard output when not initialized, or when replicating and the log file
is not itself standard output; write to the log file handle when
initialized.  No minimum-level check appears in this function. -/
def Hub_Logging_logWithName (st : LogState) (app : CStr) (lvl : Int) (msg : CStr) :
    LogWrites :=
  { to_stdout :=
      if !st.initialized || (st.replicate_stdout && !st.log_file_is_stdout)
      then some ⟨app, lvl, msg⟩ else none
    to_file := if st.initialized then some ⟨app, lvl, msg⟩ else none }

/-- `Hub_Logging_log` (src/src/hub/logging.c:90-94): drop the message when
its level is below `min_log_level`, otherwise delegate to
`Hub_Logging_logWithName` with application name "Hub". -/
def Hub_Logging_log (st : LogState) (lvl : Int) (msg : CStr) : LogWrites :=
  if lvl ≥ st.min_log_level then Hub_Logging_logWithName st (bytes "Hub") lvl msg
  else { to_stdout := none, to_file := none }

/-- The `atoi` of libc as used on wire components: skip leading whitespace,
an optional sign, then decimal digits (overflow undefined behaviour is not
modelled). -/
def c_atoi (s : CStr) : Int :=
  let s1 := s.dropWhile (fun b => b = 32 || (9 ≤ b && b ≤ 13))
  let signed : Bool × CStr :=
    match s1 with
    | 45 :: t => (true, t)
    | 43 :: t => (false, t)
    | t => (false, t)
  let digits := signed.2.takeWhile (fun b => 48 ≤ b && b ≤ 57)
  let v : Nat := digits.foldl (fun acc b => acc * 10 + (b - 48)) 0
  if signed.1 then -(v : Int) else (v : Int)

/-- `Hub_Process_log` (src/src/hub/process.c:153-160): require `count = 4`,
then record the line through `Hub_Logging_logWithName(components[1],
atoi(components[2]), components[3])`.  Returns the handler result and the
(app-name, severity, body) triple handed to the logger, `none` when the
frame was not recorded. -/
def Hub_Process_log (message : Comm_Message) : Int × Option (CStr × Int × CStr) :=
  if message.components.length ≠ 4 then (-1, none)
  else (0, some (message.components.getD 1 [],
                 c_atoi (message.components.getD 2 []),
                 message.components.getD 3 []))

/-! ## Variable store (src/src/hub/var.c) -/

/-- A `Hub_Var` (src/src/hub/seawolf_hub.h), with the `double` fields
abstracted to `V` and the subscriber clients identified by numeric ids. -/
structure Hub_Var (V : Type) where
  name : CStr
  value : V
  default_value : V
  persistent : Bool
  readonly : Bool
  subscribers : List Nat
deriving DecidableEq, Repr

/-- `Dictionary_get(var_cache, name)`: variable names are unique dictionary
keys, so the first match is the match. -/
def varsGet {V : Type} (vars : List (Hub_Var V)) (name : CStr) : Option (Hub_Var V) :=
  vars.find? (fun v => v.name == name)

/-- Side effects the request paths perform through other subsystems. -/
inductive HubEffect where
  | sendMessage (m : Comm_Message)
  | kickSend (reason : CStr)
  | broadcastNotify (m : Comm_Message)
  | watchSend (subscriber : Nat) (m : Comm_Message)
  | logLine (level : Int) (msg : CStr)
  | logRecord (app : CStr) (level : Int) (msg : CStr)
  | flushSignal
deriving DecidableEq, Repr

/-- `Hub_Var_setValue` (src/src/hub/var.c:324-370).  `fmtF` abstracts the
`snprintf("%f")` rendering of the freshly assigned value into the WATCH
frame.  Returns the C return code, the updated store, and the effects in
program order: the persistence signal (`Hub_Var_flushPersistent`) when the
variable is persistent, then one `WATCH, <name>, <value>` packed-frame send
per subscriber (`Hub_Net_sendPackedMessage`, whose result the source
ignores). -/
def Hub_Var_setValue {V : Type} (fmtF : V → CStr) (name : CStr) (value : V)
    (vars : List (Hub_Var V)) : Int × List (Hub_Var V) × List HubEffect :=
  match varsGet vars name with
  | none => (-1, vars, [])
  | some var =>
      if var.readonly then (-2, vars, [])
      else
        let vars' := vars.map (fun w => if w.name = name then { w with value := value } else w)
        let fx0 : List HubEffect := if var.persistent then [HubEffect.flushSignal] else []
        if var.subscribers.length = 0 then (0, vars', fx0)
        else
          let wmsg : Comm_Message := ⟨0, [bytes "WATCH", name, fmtF value]⟩
          (0, vars', fx0 ++ var.subscribers.map (fun s => HubEffect.watchSend s wmsg))

/-- `Hub_Var_addSubscriber` (src/src/hub/var.c:372-386): append the client to
the variable's subscriber list and the variable to the client's subscription
list. -/
def Hub_Var_addSubscriber {V : Type} (cid : Nat) (client : Hub_Client) (name : CStr)
    (vars : List (Hub_Var V)) : Int × Hub_Client × List (Hub_Var V) :=
  match varsGet vars name with
  | none => (-1, client, vars)
  | some _ =>
      (0, { client with subscribed_vars := client.subscribed_vars ++ [name] },
       vars.map (fun w =>
         if w.name = name then { w with subscribers := w.subscribers ++ [cid] } else w))

/-- `Hub_Var_deleteSubscriber` (src/src/hub/var.c:388-413): remove the first
occurrence of the client from the variable's subscriber list (-1 when absent,
store untouched), then the first occurrence of the variable from the
client's subscription list (-2 when absent, subscriber list already
updated). -/
def Hub_Var_deleteSubscriber {V : Type} (cid : Nat) (client : Hub_Client) (name : CStr)
    (vars : List (Hub_Var V)) : Int × Hub_Client × List (Hub_Var V) :=
  match varsGet vars name with
  | none => (-1, client, vars)
  | some var =>
      if cid ∈ var.subscribers then
        let vars' := vars.map (fun w =>
          if w.name = name then { w with subscribers := w.subscribers.erase cid } else w)
        if name ∈ client.subscribed_vars then
          (0, { client with subscribed_vars := client.subscribed_vars.erase name }, vars')
        else (-2, client, vars')
      else (-1, client, vars)

/-! ## Request dispatcher (src/src/hub/process.c) -/

/-- `Hub_Client_kick` (src/src/hub/client.c:38-50): mark the session closed
(`Hub_Net_markClientClosed`), then send a `COMM, KICKING, <reason>` frame.
The kick effect stands for that frame. -/
def Hub_Client_kick (client : Hub_Client) (reason : CStr) : Hub_Client × List HubEffect :=
  ({ client with state := Hub_Client_State.CLOSED }, [HubEffect.kickSend reason])

/-- `Hub_Client_close` (src/src/hub/client.c:55-64): send a
`COMM, CLOSING` frame (request id 0), then mark the session closed. -/
def Hub_Client_close (client : Hub_Client) : Hub_Client × List HubEffect :=
  ({ client with state := Hub_Client_State.CLOSED },
   [HubEffect.sendMessage ⟨0, [bytes "COMM", bytes "CLOSING"]⟩])

/-- `Hub_Process_comm` (src/src/hub/process.c:30-66).  `pw` is
`Hub_Config_getOption("password")` (`none` for NULL). -/
def Hub_Process_comm (pw : Option CStr) (client : Hub_Client) (message : Comm_Message) :
    Int × Hub_Client × List HubEffect :=
  let comps := message.components
  if comps.length = 3 ∧ comps.getD 1 [] = bytes "AUTH" then
    match pw with
    | none =>
        (-1, client,
         [HubEffect.logLine 4 (bytes "No password set! Refusing to authenticate clients!")])
    | some actual =>
        if comps.getD 2 [] = actual then
          (0, { client with state := Hub_Client_State.CONNECTED },
           [HubEffect.sendMessage ⟨message.request_id, [bytes "COMM", bytes "SUCCESS"]⟩])
        else
          let kicked := Hub_Client_kick client (bytes "Authentication failure")
          (0, kicked.1,
           HubEffect.sendMessage ⟨message.request_id, [bytes "COMM", bytes "FAILURE"]⟩
             :: kicked.2)
  else if comps.length = 2 ∧ comps.getD 1 [] = bytes "SHUTDOWN" then
    let closed := Hub_Client_close client
    (0, closed.1, closed.2)
  else (-1, client, [])

/-- `Hub_Process_notify` (src/src/hub/process.c:78-106). -/
def Hub_Process_notify (client : Hub_Client) (message : Comm_Message) :
    Int × Hub_Client × List HubEffect :=
  let comps := message.components
  if comps.length = 3 ∧ comps.getD 1 [] = bytes "OUT" then
    (0, client,
     [HubEffect.broadcastNotify ⟨0, [bytes "NOTIFY", bytes "IN", comps.getD 2 []]⟩])
  else if comps.length = 4 ∧ comps.getD 1 [] = bytes "ADD_FILTER" then
    (0, Hub_Client_addFilter client (c_atoi (comps.getD 2 [])) (comps.getD 3 []), [])
  else if comps.length = 2 ∧ comps.getD 1 [] = bytes "CLEAR_FILTERS" then
    (0, Hub_Client_clearFilters client, [])
  else (-1, client, [])

/-- `Util_format("Invalid variable access (%s)", name)`. -/
def invalidVarAccess (name : CStr) : CStr :=
  bytes "Invalid variable access (" ++ name ++ bytes ")"

/-- `Hub_Process_var` (src/src/hub/process.c:171-223). -/
def Hub_Process_var {V : Type} (fmtF : V → CStr) (atofF : CStr → V)
    (client : Hub_Client) (vars : List (Hub_Var V)) (message : Comm_Message) :
    Int × Hub_Client × List (Hub_Var V) × List HubEffect :=
  let comps := message.components
  if comps.length = 3 ∧ comps.getD 1 [] = bytes "GET" then
    match varsGet vars (comps.getD 2 []) with
    | none =>
        let kicked := Hub_Client_kick client (invalidVarAccess (comps.getD 2 []))
        (-1, kicked.1, vars,
         HubEffect.logLine 4
             (bytes "Get attempted on not-existent variable '" ++ comps.getD 2 [] ++ bytes "'")
           :: kicked.2)
    | some var =>
        (0, client, vars,
         [HubEffect.sendMessage ⟨message.request_id,
            [bytes "VAR", bytes "VALUE",
             if var.readonly then bytes "RO" else bytes "RW",
             fmtF var.value]⟩])
  else if comps.length = 4 ∧ comps.getD 1 [] = bytes "SET" then
    let name := comps.getD 2 []
    let r := Hub_Var_setValue fmtF name (atofF (comps.getD 3 [])) vars
    if r.1 = -1 then
      let kicked := Hub_Client_kick client (invalidVarAccess name)
      (-1, kicked.1, r.2.1,
       HubEffect.logLine 4
           (bytes "Set attempted on not-existent variable '" ++ name ++ bytes "'")
         :: kicked.2)
    else if r.1 = -2 then
      let kicked := Hub_Client_kick client (invalidVarAccess name)
      (-1, kicked.1, r.2.1,
       HubEffect.logLine 4
           (bytes "Set attempted on read-only variable '" ++ name ++ bytes "'")
         :: kicked.2)
    else (0, client, r.2.1, r.2.2)
  else (-1, client, vars, [])

/-- `Hub_Process_watch` (src/src/hub/process.c:119-143). -/
def Hub_Process_watch {V : Type} (cid : Nat) (client : Hub_Client)
    (vars : List (Hub_Var V)) (message : Comm_Message) :
    Int × Hub_Client × List (Hub_Var V) × List HubEffect :=
  let comps := message.components
  if comps.length = 3 then
    if comps.getD 1 [] = bytes "ADD" then
      let r := Hub_Var_addSubscriber cid client (comps.getD 2 []) vars
      if r.1 = -1 then
        let kicked := Hub_Client_kick r.2.1
          (bytes "Subscribing to invalid variable (" ++ comps.getD 2 [] ++ bytes ")")
        (-1, kicked.1, r.2.2, kicked.2)
      else (r.1, r.2.1, r.2.2, [])
    else if comps.getD 1 [] = bytes "DEL" then
      let r := Hub_Var_deleteSubscriber cid client (comps.getD 2 []) vars
      if r.1 = -1 then
        let kicked := Hub_Client_kick r.2.1
          (bytes "Unsubscribing to invalid variable (" ++ comps.getD 2 [] ++ bytes ")")
        (-1, kicked.1, r.2.2, kicked.2)
      else (r.1, r.2.1, r.2.2, [])
    else (-1, client, vars, [])
  else (-1, client, vars, [])

/-- `Hub_Process_process` (src/src/hub/process.c:234-255): the dispatcher.
`cid` identifies the calling session in subscriber lists.  Returns the C
return code, the updated session, the updated variable store, and the
effects performed. -/
def Hub_Process_process {V : Type} (pw : Option CStr) (fmtF : V → CStr)
    (atofF : CStr → V) (cid : Nat) (client : Hub_Client) (vars : List (Hub_Var V))
    (message : Comm_Message) :
    Int × Hub_Client × List (Hub_Var V) × List HubEffect :=
  let comps := message.components
  if comps.length = 0 then
    let kicked := Hub_Client_kick client (bytes "Illegal message")
    (-1, kicked.1, vars, kicked.2)
  else if comps.getD 0 [] = bytes "COMM" then
    let r := Hub_Process_comm pw client message
    (r.1, r.2.1, vars, r.2.2)
  else if client.state = Hub_Client_State.CONNECTED then
    if comps.getD 0 [] = bytes "NOTIFY" then
      let r := Hub_Process_notify client message
      (r.1, r.2.1, vars, r.2.2)
    else if comps.getD 0 [] = bytes "VAR" then
      Hub_Process_var fmtF atofF client vars message
    else if comps.getD 0 [] = bytes "WATCH" then
      Hub_Process_watch cid client vars message
    else if comps.getD 0 [] = bytes "LOG" then
      let r := Hub_Process_log message
      (r.1, client, vars,
       match r.2 with
       | some rec3 => [HubEffect.logRecord rec3.1 rec3.2.1 rec3.2.2]
       | none => [])
    else (-1, client, vars, [])
  else (-1, client, vars, [])

/-! ## Persistence writer (src/src/hub/var.c, Hub_Var_dbFlusher) -/

/-- One write performed through the `tmp_db_file` handle: the two-token
header comment line, or one `name = value` entry of a persistent variable
(the `%.4f` rendering is abstracted by keeping the value). -/
inductive DbWrite (V : Type) where
  | header
  | entry (name : CStr) (value : V)
deriving DecidableEq, Repr

/-- The observable actions of one pass of the `Hub_Var_dbFlusher` loop body. -/
structure FlushPass (V : Type) where
  logs : List (Int × CStr)
  handle_writes : List (DbWrite V)
  closed_handle : Bool
  renamed : Bool
deriving DecidableEq, Repr

/-- One pass of the loop body of `Hub_Var_dbFlusher`
(src/src/hub/var.c:60-80), entered after `do_flush_flag` was observed set
and cleared.  `openOk` records whether `fopen(tmp_db, "w")` returned a
handle.  Translated statement by statement: when `fopen` fails the source
logs at ERROR (level 4) — and then falls through, performing the header
`fprintf`, every per-variable `fprintf`, the `fclose` and the `rename` on
the NULL handle all the same (there is no `continue` in that branch). -/
def Hub_Var_dbFlusher_pass {V : Type} (openOk : Bool) (pvars : List (CStr × V)) :
    FlushPass V :=
  { logs := if openOk then [] else [(4, bytes "Unable to flush database!")]
    handle_writes := DbWrite.header :: pvars.map (fun p => DbWrite.entry p.1 p.2)
    closed_handle := true
    renamed := true }

/-! ### Codec lemmas -/

theorem takeCStr_append (c : CStr) (t : List Nat) (h : ∀ b ∈ c, b ≠ 0) :
    takeCStr (c ++ 0 :: t) = c := by
  induction c with
  | nil => simp [takeCStr]
  | cons a c ih =>
      have ha : a ≠ 0 := h a (List.mem_cons_self a c)
      have hc : ∀ b ∈ c, b ≠ 0 := fun b hb => h b (List.mem_cons_of_mem a hb)
      have hpa : decide (a ≠ 0) = true := by simp [ha]
      unfold takeCStr at ih ⊢
      rw [List.cons_append, List.takeWhile_cons, if_pos hpa, ih hc]

theorem splitComponents_length (n : Nat) : ∀ l, (splitComponents n l).length = n := by
  induction n with
  | zero => intro l; rfl
  | succ n ih => intro l; simp [splitComponents, ih]

theorem splitComponents_join (comps : List CStr)
    (h : ∀ c ∈ comps, ∀ b ∈ c, b ≠ 0) :
    splitComponents comps.length ((comps.map (fun c => c ++ [0])).flatten) = comps := by
  induction comps with
  | nil => rfl
  | cons c cs ih =>
      have hc : ∀ b ∈ c, b ≠ 0 := h c (List.mem_cons_self c cs)
      have hcs : ∀ d ∈ cs, ∀ b ∈ d, b ≠ 0 := fun d hd => h d (List.mem_cons_of_mem c hd)
      have hjoin : ((c :: cs).map (fun c => c ++ [0])).flatten
          = c ++ 0 :: ((cs.map (fun c => c ++ [0])).flatten) := by
        simp [List.flatten]
      have hdrop : (c ++ 0 :: ((cs.map (fun c => c ++ [0])).flatten)).drop (c.length + 1)
          = (cs.map (fun c => c ++ [0])).flatten := by
        have : c ++ 0 :: ((cs.map (fun c => c ++ [0])).flatten)
            = (c ++ [0]) ++ (cs.map (fun c => c ++ [0])).flatten := by simp
        rw [this]
        have hlen : (c ++ [0]).length = c.length + 1 := by simp
        rw [← hlen, List.drop_left]
      simp only [List.length_cons, splitComponents, hjoin,
        takeCStr_append c _ hc, hdrop, ih hcs]

theorem join_terminated_length (comps : List CStr) :
    ((comps.map (fun c => c ++ [0])).flatten).length
      = (comps.map (fun c => c.length + 1)).sum := by
  induction comps with
  | nil => rfl
  | cons c cs ih =>
      simp [List.flatten, ih]
      omega

/-- Unpacking a frame packed from a well-formed message recovers the message. -/
theorem unpack_pack (m : Comm_Message)
    (hnul : ∀ c ∈ m.components, ∀ b ∈ c, b ≠ 0)
    (hlen : (m.components.map (fun c => c.length + 1)).sum ≤ 65535)
    (hcount : m.components.length ≤ 65535)
    (hrid : m.request_id ≤ 65535) :
    Comm_unpackMessage (Comm_packMessage m) = m := by
  obtain ⟨rid, comps⟩ := m
  simp only at hnul hlen hcount hrid
  set t := (comps.map (fun c => c.length + 1)).sum with ht
  set J := (comps.map (fun c => c ++ [0])).flatten with hJ
  have hpack : Comm_packMessage ⟨rid, comps⟩
      = (t % 65536 / 256) :: (t % 256) :: (rid % 65536 / 256) :: (rid % 256)
        :: (comps.length % 65536 / 256) :: (comps.length % 256) :: J := by
    simp [Comm_packMessage, u16be, ← ht, ← hJ]
  have hJlen : J.length = t := by
    rw [hJ, ht]; exact join_terminated_length comps
  have hdec : ∀ x : Nat, x ≤ 65535 → u16dec (x % 65536 / 256) (x % 256) = x := by
    intro x hx
    simp only [u16dec]
    omega
  rw [hpack]
  simp only [Comm_unpackMessage, COMM_MESSAGE_PREFIX_LEN, List.getD, List.drop,
    List.get?, List.getD_cons_zero, List.getD_cons_succ, Option.getD_some]
  rw [hdec t hlen, hdec rid hrid, hdec comps.length hcount]
  have hsplit : splitComponents comps.length J = comps := by
    rw [hJ]; exact splitComponents_join comps hnul
  rw [← hJlen, List.take_length, hsplit]

/-! ### Filter lemmas -/

/-- The whole-leading-token filter arm can never turn the accumulator on:
with the accumulator off it stays off, whatever the bodies are. -/
theorem prefixFilterLoop_false (body : List Nat) :
    ∀ fb, prefixFilterLoop false body fb = false := by
  induction body with
  | nil => intro fb; rfl
  | cons b brest ih =>
      intro fb
      simp only [prefixFilterLoop]
      by_cases hb : b = 0
      · rw [if_pos hb]
      · rw [if_neg hb]
        by_cases hfb : fb.headD 0 = 0
        · rw [if_pos hfb]
          by_cases hsp : b = 32
          · rw [if_pos hsp]; exact ih _
          · rw [if_neg hsp]
        · rw [if_neg hfb]; exact ih _

/-- A client whose filters are all of kind 3 (the wire value of the
whole-leading-token kind) never accepts any notification. -/
theorem checkFilters_all_kind3_false (fs : List (Nat × CStr)) (body : CStr)
    (h : ∀ f ∈ fs, f.1 = 3) :
    fs.foldl (checkFilterStep body) false = false := by
  induction fs with
  | nil => rfl
  | cons f fs ih =>
      have hf : f.1 = 3 := h f (List.mem_cons_self f fs)
      have hstep : checkFilterStep body false f = false := by
        simp [checkFilterStep, hf, prefixFilterLoop_false]
      rw [List.foldl_cons, hstep]
      exact ih (fun g hg => h g (List.mem_cons_of_mem f hg))

/-! ### Dispatcher reduction lemmas -/

/-- For a CONNECTED session, a frame whose first component is "VAR" is routed
to `Hub_Process_var`. -/
theorem process_routes_VAR {V : Type} (pw : Option CStr) (fmtF : V → CStr)
    (atofF : CStr → V) (cid : Nat) (client : Hub_Client) (vars : List (Hub_Var V))
    (rid : Nat) (rest : List CStr)
    (hstate : client.state = Hub_Client_State.CONNECTED) :
    Hub_Process_process pw fmtF atofF cid client vars ⟨rid, bytes "VAR" :: rest⟩
      = Hub_Process_var fmtF atofF client vars ⟨rid, bytes "VAR" :: rest⟩ := by
  have h1 : ¬(bytes "VAR" = bytes "COMM") := by decide
  have h2 : ¬(bytes "VAR" = bytes "NOTIFY") := by decide
  simp [Hub_Process_process, h1, h2, hstate]

/-! ### Claim theorems -/

/-- Claim C1.  The spec: a client filter of kind PREFIX with body P accepts a
notification body B iff B starts with P and the byte at `len(P)` is a space
(or B = P); in particular a PREFIX("ALARM") filter accepts "ALARM hot" and
rejects "ALARMIST".  The source's FILTER_PREFIX arm (kind byte 3) only ever
clears the accept flag, never sets it, so `Hub_Client_checkFilters` rejects
"ALARM hot" as well — evaluated here at the spec's own scenario E.  (The
general fact that kind-3 filters can never accept is
`checkFilters_all_kind3_false`.) -/
theorem C1_prefix_filter_rejects_its_own_token :
    Hub_Client_checkFilters
        ⟨Hub_Client_State.CONNECTED, [(3, bytes "ALARM")], []⟩
        ⟨0, [bytes "NOTIFY", bytes "IN", bytes "ALARM hot"]⟩ = false
    ∧ Hub_Client_checkFilters
        ⟨Hub_Client_State.CONNECTED, [(3, bytes "ALARM")], []⟩
        ⟨0, [bytes "NOTIFY", bytes "IN", bytes "ALARMIST"]⟩ = false := by
  exact ⟨by decide, by decide⟩

/-- Claim C2, counterexample.  A frame declaring `count = 1` whose 4-byte
payload "A\x00B\x00" contains two NUL terminators is NOT rejected as
malformed: `Comm_unpackMessage` returns an ordinary one-component message
("A"), and the dispatcher then processes that message without issuing any
kick (here for a CONNECTED session: no handler matches, the return value is
-1 and the session is left untouched). -/
theorem C2_counterexample_mismatched_nuls_not_rejected :
    countNuls [65, 0, 66, 0] = 2
    ∧ countField ([0, 4, 0, 0, 0, 1] ++ [65, 0, 66, 0]) = 1
    ∧ Comm_unpackMessage ([0, 4, 0, 0, 0, 1] ++ [65, 0, 66, 0]) = ⟨0, [[65]]⟩
    ∧ @Hub_Process_process Int (some (bytes "pw")) (fun _ => bytes "0")
        (fun _ => 0) 1 ⟨Hub_Client_State.CONNECTED, [], []⟩ []
        (Comm_unpackMessage ([0, 4, 0, 0, 0, 1] ++ [65, 0, 66, 0]))
      = (-1, ⟨Hub_Client_State.CONNECTED, [], []⟩, [], []) := by
  exact ⟨by decide, by decide, by decide, by decide⟩

/-- Claim C2, amended.  Unpacking reads the header and then splits the
`data-len` payload bytes on NUL into exactly the declared number of
components — but it trusts the declared count: no comparison with the number
of NUL terminators actually present is made, and a mismatched frame is not
rejected (no kick arises from unpacking; only a zero-component frame is
later kicked by the dispatcher, see `C3_amended_dispatch`). -/
theorem C2_amended_unpack_trusts_declared_count (data : List Nat) :
    (Comm_unpackMessage data).components.length = countField data := by
  simp [Comm_unpackMessage, countField, splitComponents_length]

/-- Claim C3, counterexample.  For a session still UNAUTHENTICATED, a frame
whose namespace is not COMM (here `NOTIFY, OUT, "x"`) is NOT kicked: the
dispatcher returns -1 with no effects, the session state is unchanged (in
particular not CLOSED) and no COMM.KICKING frame is sent. -/
theorem C3_counterexample_unauthenticated_frame_ignored :
    @Hub_Process_process Int (some (bytes "pw")) (fun _ => bytes "0") (fun _ => 0) 1
        ⟨Hub_Client_State.UNAUTHENTICATED, [], []⟩ []
        ⟨0, [bytes "NOTIFY", bytes "OUT", bytes "x"]⟩
      = (-1, ⟨Hub_Client_State.UNAUTHENTICATED, [], []⟩, [], []) := by
  decide

/-- Claim C3, amended.  For every session whose state is not CONNECTED,
processing a received frame whose namespace component[0] is not COMM leaves
the session untouched: the dispatcher falls through to `return -1` with no
kick, no effects and no state change.  Only a frame with zero components is
kicked with "Illegal message" (for any state). -/
theorem C3_amended_dispatch :
    (∀ (V : Type) (pw : Option CStr) (fmtF : V → CStr) (atofF : CStr → V)
       (cid : Nat) (client : Hub_Client) (vars : List (Hub_Var V)) (msg : Comm_Message),
       client.state ≠ Hub_Client_State.CONNECTED →
       msg.components ≠ [] →
       msg.components.getD 0 [] ≠ bytes "COMM" →
       Hub_Process_process pw fmtF atofF cid client vars msg = (-1, client, vars, []))
    ∧ (∀ (V : Type) (pw : Option CStr) (fmtF : V → CStr) (atofF : CStr → V)
       (cid : Nat) (client : Hub_Client) (vars : List (Hub_Var V)) (msg : Comm_Message),
       msg.components = [] →
       Hub_Process_process pw fmtF atofF cid client vars msg
         = (-1, { client with state := Hub_Client_State.CLOSED }, vars,
            [HubEffect.kickSend (bytes "Illegal message")])) := by
  constructor
  · intro V pw fmtF atofF cid client vars msg hstate hne hcomm
    have hlen : msg.components.length ≠ 0 := fun h => hne (List.length_eq_zero.mp h)
    have hcomm' : msg.components[0]?.getD [] ≠ bytes "COMM" := by
      simpa [List.getD] using hcomm
    simp [Hub_Process_process, hlen, hcomm', hstate]
  · intro V pw fmtF atofF cid client vars msg hnil
    simp [Hub_Process_process, hnil, Hub_Client_kick]

/-- Claim C3 witness: the amended statement applied to a concrete
UNAUTHENTICATED session receiving `VAR, GET, Depth`, and to a concrete
CONNECTED session receiving an empty frame. -/
theorem C3_amended_dispatch_witness :
    @Hub_Process_process Int (some (bytes "pw")) (fun _ => bytes "0") (fun _ => 0) 1
        ⟨Hub_Client_State.UNAUTHENTICATED, [], []⟩ []
        ⟨0, [bytes "VAR", bytes "GET", bytes "Depth"]⟩
      = (-1, ⟨Hub_Client_State.UNAUTHENTICATED, [], []⟩, [], [])
    ∧ @Hub_Process_process Int (some (bytes "pw")) (fun _ => bytes "0") (fun _ => 0) 1
        ⟨Hub_Client_State.CONNECTED, [], []⟩ [] ⟨0, []⟩
      = (-1, ⟨Hub_Client_State.CLOSED, [], []⟩, [],
         [HubEffect.kickSend (bytes "Illegal message")]) := by
  constructor
  · exact C3_amended_dispatch.1 Int (some (bytes "pw")) (fun _ => bytes "0")
      (fun _ => 0) 1 ⟨Hub_Client_State.UNAUTHENTICATED, [], []⟩ []
      ⟨0, [bytes "VAR", bytes "GET", bytes "Depth"]⟩
      (by decide) (by decide) (by decide)
  · exact C3_amended_dispatch.2 Int (some (bytes "pw")) (fun _ => bytes "0")
      (fun _ => 0) 1 ⟨Hub_Client_State.CONNECTED, [], []⟩ [] ⟨0, []⟩ rfl

/-- Sum of NUL-terminated component sizes = sum of body lengths + count. -/
theorem sum_terminated_lengths (comps : List CStr) :
    (comps.map (fun c => c.length + 1)).sum = (comps.map List.length).sum + comps.length := by
  induction comps with
  | nil => rfl
  | cons c cs ih =>
      simp only [List.map_cons, List.sum_cons, List.length_cons, ih]
      omega

/-- Claim C4.  For a message with at least one component, NUL-free component
bodies, and all packed quantities within the 16-bit header fields: the
packed frame's data-len field equals the sum of the component body lengths
plus the component count (one NUL per component), and pack → unpack → pack
is byte-identical. -/
theorem C4_datalen_and_roundtrip (m : Comm_Message)
    (hne : m.components ≠ [])
    (hnul : ∀ c ∈ m.components, ∀ b ∈ c, b ≠ 0)
    (hlen : (m.components.map (fun c => c.length + 1)).sum ≤ 65535)
    (hcount : m.components.length ≤ 65535)
    (hrid : m.request_id ≤ 65535) :
    dataLenField (Comm_packMessage m)
        = (m.components.map List.length).sum + m.components.length
    ∧ Comm_packMessage (Comm_unpackMessage (Comm_packMessage m)) = Comm_packMessage m := by
  have hsum := sum_terminated_lengths m.components
  constructor
  · simp only [Comm_packMessage, dataLenField, u16be, List.cons_append, List.nil_append,
      List.getD_cons_zero, List.getD_cons_succ, u16dec]
    rw [hsum] at hlen ⊢
    omega
  · rw [unpack_pack m hnul hlen hcount hrid]

/-- Claim C4 witness: the theorem applied to the concrete two-component
message ⟨request-id 7, ["A", "BC"]⟩, whose packed form is
[0,5, 0,7, 0,2, 65,0, 66,67,0]. -/
theorem C4_datalen_and_roundtrip_witness :
    dataLenField (Comm_packMessage ⟨7, [[65], [66, 67]]⟩) = 5
    ∧ Comm_packMessage (Comm_unpackMessage (Comm_packMessage ⟨7, [[65], [66, 67]]⟩))
        = Comm_packMessage ⟨7, [[65], [66, 67]]⟩ := by
  have h := C4_datalen_and_roundtrip ⟨7, [[65], [66, 67]]⟩
    (by decide) (by decide) (by decide) (by decide) (by decide)
  exact ⟨h.1.trans (by decide), h.2⟩

/-- Claim C5.  The empty-filter half is right: a session with zero filters
receives nothing.  But "accepted iff at least one filter matches,
independent of order" fails in the source: a MATCH filter whose body equals
the notification body matches on its own (second conjunct), yet appending a
kind-3 filter AFTER it makes `Hub_Client_checkFilters` return false (third
conjunct) — the kind-3 arm overwrites the accumulator with false — while
the same two filters in the opposite order accept (fourth conjunct). -/
theorem C5_or_combination_fails :
    Hub_Client_checkFilters ⟨Hub_Client_State.CONNECTED, [], []⟩
        ⟨0, [bytes "NOTIFY", bytes "IN", bytes "ALARM hot"]⟩ = false
    ∧ Hub_Client_checkFilters
        ⟨Hub_Client_State.CONNECTED, [(1, bytes "ALARM hot")], []⟩
        ⟨0, [bytes "NOTIFY", bytes "IN", bytes "ALARM hot"]⟩ = true
    ∧ Hub_Client_checkFilters
        ⟨Hub_Client_State.CONNECTED, [(1, bytes "ALARM hot"), (3, bytes "ALARM")], []⟩
        ⟨0, [bytes "NOTIFY", bytes "IN", bytes "ALARM hot"]⟩ = false
    ∧ Hub_Client_checkFilters
        ⟨Hub_Client_State.CONNECTED, [(3, bytes "ALARM"), (1, bytes "ALARM hot")], []⟩
        ⟨0, [bytes "NOTIFY", bytes "IN", bytes "ALARM hot"]⟩ = true := by
  exact ⟨by decide, by decide, by decide, by decide⟩

/-- Claim C7.  When `fopen(tmp_db, "w")` fails during a flush pass, the
source does log at ERROR (first conjunct, matching the claim) — but it does
NOT drop the flush: it goes on to perform the header write and every
per-variable write (and the fclose and rename) through the NULL file handle
(second and third conjuncts), which is undefined behaviour in C.  Evaluated
at a store with the single persistent variable "Tuning". -/
theorem C7_flusher_writes_through_failed_handle :
    (Hub_Var_dbFlusher_pass false [(bytes "Tuning", (0 : Int))]).logs
        = [(4, bytes "Unable to flush database!")]
    ∧ (Hub_Var_dbFlusher_pass false [(bytes "Tuning", (0 : Int))]).handle_writes
        = [DbWrite.header, DbWrite.entry (bytes "Tuning") 0]
    ∧ (Hub_Var_dbFlusher_pass false [(bytes "Tuning", (0 : Int))]).handle_writes ≠ [] := by
  exact ⟨by decide, by decide, by decide⟩

/-- Claim C6.  `Hub_Var_setValue`: unknown name → -1 with the store and
effect list untouched; read-only variable → -2 likewise; success → 0 with
the named variable's value updated.  And at the dispatcher, both error codes
make `Hub_Process_var` log at ERROR and kick the calling client with
"Invalid variable access (<name>)", with no store change and no WATCH
send. -/
theorem C6_setValue_errors_and_dispatch :
    (∀ (V : Type) (fmtF : V → CStr) (name : CStr) (value : V) (vars : List (Hub_Var V)),
       varsGet vars name = none →
       Hub_Var_setValue fmtF name value vars = (-1, vars, []))
    ∧ (∀ (V : Type) (fmtF : V → CStr) (name : CStr) (value : V) (vars : List (Hub_Var V))
         (var : Hub_Var V),
       varsGet vars name = some var → var.readonly = true →
       Hub_Var_setValue fmtF name value vars = (-2, vars, []))
    ∧ (∀ (V : Type) (fmtF : V → CStr) (name : CStr) (value : V) (vars : List (Hub_Var V))
         (var : Hub_Var V),
       varsGet vars name = some var → var.readonly = false →
       (Hub_Var_setValue fmtF name value vars).1 = 0
       ∧ (Hub_Var_setValue fmtF name value vars).2.1
           = vars.map (fun w => if w.name = name then { w with value := value } else w))
    ∧ (∀ (V : Type) (pw : Option CStr) (fmtF : V → CStr) (atofF : CStr → V) (cid : Nat)
         (client : Hub_Client) (vars : List (Hub_Var V)) (rid : Nat) (name vstr : CStr),
       client.state = Hub_Client_State.CONNECTED →
       varsGet vars name = none →
       Hub_Process_process pw fmtF atofF cid client vars
           ⟨rid, [bytes "VAR", bytes "SET", name, vstr]⟩
         = (-1, { client with state := Hub_Client_State.CLOSED }, vars,
            [HubEffect.logLine 4
               (bytes "Set attempted on not-existent variable '" ++ name ++ bytes "'"),
             HubEffect.kickSend (invalidVarAccess name)]))
    ∧ (∀ (V : Type) (pw : Option CStr) (fmtF : V → CStr) (atofF : CStr → V) (cid : Nat)
         (client : Hub_Client) (vars : List (Hub_Var V)) (rid : Nat) (name vstr : CStr)
         (var : Hub_Var V),
       client.state = Hub_Client_State.CONNECTED →
       varsGet vars name = some var → var.readonly = true →
       Hub_Process_process pw fmtF atofF cid client vars
           ⟨rid, [bytes "VAR", bytes "SET", name, vstr]⟩
         = (-1, { client with state := Hub_Client_State.CLOSED }, vars,
            [HubEffect.logLine 4
               (bytes "Set attempted on read-only variable '" ++ name ++ bytes "'"),
             HubEffect.kickSend (invalidVarAccess name)])) := by
  have hSG : ¬(bytes "SET" = bytes "GET") := by decide
  refine ⟨?_, ?_, ?_, ?_, ?_⟩
  · intro V fmtF name value vars hlook
    simp [Hub_Var_setValue, hlook]
  · intro V fmtF name value vars var hlook hro
    simp [Hub_Var_setValue, hlook, hro]
  · intro V fmtF name value vars var hlook hro
    by_cases hs : var.subscribers.length = 0 <;>
      simp [Hub_Var_setValue, hlook, hro, hs]
  · intro V pw fmtF atofF cid client vars rid name vstr hstate hlook
    rw [process_routes_VAR pw fmtF atofF cid client vars rid _ hstate]
    simp [Hub_Process_var, Hub_Var_setValue, hlook, hSG, Hub_Client_kick]
  · intro V pw fmtF atofF cid client vars rid name vstr var hstate hlook hro
    rw [process_routes_VAR pw fmtF atofF cid client vars rid _ hstate]
    simp [Hub_Process_var, Hub_Var_setValue, hlook, hro, hSG, Hub_Client_kick]


/-- Claim C6 witness: the theorem applied to the concrete store
[RO (read-only), Depth (writable)] — a missing name and the read-only name
at both the store and the dispatcher level, plus a successful set. -/
theorem C6_setValue_errors_and_dispatch_witness :
    Hub_Var_setValue (fun _ : Int => bytes "0") (bytes "Nope") 5
        [⟨bytes "RO", 1, 1, false, true, []⟩, ⟨bytes "Depth", 1, 1, false, false, []⟩]
      = (-1, [⟨bytes "RO", 1, 1, false, true, []⟩, ⟨bytes "Depth", 1, 1, false, false, []⟩], [])
    ∧ Hub_Var_setValue (fun _ : Int => bytes "0") (bytes "RO") 5
        [⟨bytes "RO", 1, 1, false, true, []⟩, ⟨bytes "Depth", 1, 1, false, false, []⟩]
      = (-2, [⟨bytes "RO", 1, 1, false, true, []⟩, ⟨bytes "Depth", 1, 1, false, false, []⟩], [])
    ∧ (Hub_Var_setValue (fun _ : Int => bytes "0") (bytes "Depth") 5
        [⟨bytes "RO", 1, 1, false, true, []⟩, ⟨bytes "Depth", 1, 1, false, false, []⟩]).1 = 0
    ∧ (Hub_Var_setValue (fun _ : Int => bytes "0") (bytes "Depth") 5
        [⟨bytes "RO", 1, 1, false, true, []⟩, ⟨bytes "Depth", 1, 1, false, false, []⟩]).2.1
      = [⟨bytes "RO", 1, 1, false, true, []⟩, ⟨bytes "Depth", 5, 1, false, false, []⟩]
    ∧ @Hub_Process_process Int (some (bytes "pw")) (fun _ => bytes "0") (fun _ => 5) 1
        ⟨Hub_Client_State.CONNECTED, [], []⟩
        [⟨bytes "RO", 1, 1, false, true, []⟩, ⟨bytes "Depth", 1, 1, false, false, []⟩]
        ⟨9, [bytes "VAR", bytes "SET", bytes "Nope", bytes "5"]⟩
      = (-1, ⟨Hub_Client_State.CLOSED, [], []⟩,
         [⟨bytes "RO", 1, 1, false, true, []⟩, ⟨bytes "Depth", 1, 1, false, false, []⟩],
         [HubEffect.logLine 4
            (bytes "Set attempted on not-existent variable '" ++ bytes "Nope" ++ bytes "'"),
          HubEffect.kickSend (invalidVarAccess (bytes "Nope"))])
    ∧ @Hub_Process_process Int (some (bytes "pw")) (fun _ => bytes "0") (fun _ => 5) 1
        ⟨Hub_Client_State.CONNECTED, [], []⟩
        [⟨bytes "RO", 1, 1, false, true, []⟩, ⟨bytes "Depth", 1, 1, false, false, []⟩]
        ⟨9, [bytes "VAR", bytes "SET", bytes "RO", bytes "5"]⟩
      = (-1, ⟨Hub_Client_State.CLOSED, [], []⟩,
         [⟨bytes "RO", 1, 1, false, true, []⟩, ⟨bytes "Depth", 1, 1, false, false, []⟩],
         [HubEffect.logLine 4
            (bytes "Set attempted on read-only variable '" ++ bytes "RO" ++ bytes "'"),
          HubEffect.kickSend (invalidVarAccess (bytes "RO"))]) := by
  have h := C6_setValue_errors_and_dispatch
  refine ⟨h.1 Int (fun _ => bytes "0") (bytes "Nope") 5 _ (by decide),
          h.2.1 Int (fun _ => bytes "0") (bytes "RO") 5 _
            ⟨bytes "RO", 1, 1, false, true, []⟩ (by decide) rfl,
          (h.2.2.1 Int (fun _ => bytes "0") (bytes "Depth") 5 _
            ⟨bytes "Depth", 1, 1, false, false, []⟩ (by decide) rfl).1,
          ((h.2.2.1 Int (fun _ => bytes "0") (bytes "Depth") 5 _
            ⟨bytes "Depth", 1, 1, false, false, []⟩ (by decide) rfl).2).trans (by decide),
          h.2.2.2.1 Int (some (bytes "pw")) (fun _ => bytes "0") (fun _ => 5) 1
            ⟨Hub_Client_State.CONNECTED, [], []⟩ _ 9 (bytes "Nope") (bytes "5")
            rfl (by decide),
          h.2.2.2.2 Int (some (bytes "pw")) (fun _ => bytes "0") (fun _ => 5) 1
            ⟨Hub_Client_State.CONNECTED, [], []⟩ _ 9 (bytes "RO") (bytes "5")
            ⟨bytes "RO", 1, 1, false, true, []⟩ rfl (by decide) rfl⟩

/-- Claim C8, counterexample.  With the configured minimum level NORMAL (2)
and the logging subsystem initialized, a client LOG frame carrying severity
DEBUG (0) — below the minimum — is still recorded by `Hub_Process_log`, and
`Hub_Logging_logWithName` writes the line to the log file (and here also to
standard output): the client-frame path never consults `min_log_level`. -/
theorem C8_counterexample_client_log_below_min_written :
    c_atoi (bytes "0") = 0
    ∧ (0 : Int) < (2 : Int)
    ∧ Hub_Process_log ⟨0, [bytes "LOG", bytes "app", bytes "0", bytes "hello"]⟩
        = (0, some (bytes "app", 0, bytes "hello"))
    ∧ (Hub_Logging_logWithName ⟨2, true, true, false⟩ (bytes "app") 0 (bytes "hello")).to_file
        = some ⟨bytes "app", 0, bytes "hello"⟩
    ∧ (Hub_Logging_logWithName ⟨2, true, true, false⟩ (bytes "app") 0 (bytes "hello")).to_stdout
        = some ⟨bytes "app", 0, bytes "hello"⟩ := by
  exact ⟨by decide, by decide, by decide, by decide, by decide⟩

/-- Claim C8, amended.  The minimum-level filter exists only in
`Hub_Logging_log`, the hub's own entry point: below-minimum messages are
dropped there (first conjunct).  A client LOG frame, however, is recorded by
`Hub_Process_log` through `Hub_Logging_logWithName` with app-name
component[1], severity `atoi(component[2])` and body component[3]
unconditionally (third conjunct), and `Hub_Logging_logWithName` writes the
line to the log file whenever the subsystem is initialized, with no
minimum-level check (second conjunct). -/
theorem C8_amended_min_level_only_in_log :
    (∀ (st : LogState) (lvl : Int) (msg : CStr),
       lvl < st.min_log_level → Hub_Logging_log st lvl msg = ⟨none, none⟩)
    ∧ (∀ (st : LogState) (app : CStr) (lvl : Int) (msg : CStr),
       st.initialized = true →
       (Hub_Logging_logWithName st app lvl msg).to_file = some ⟨app, lvl, msg⟩)
    ∧ (∀ (rid : Nat) (c1 c2 c3 : CStr),
       Hub_Process_log ⟨rid, [bytes "LOG", c1, c2, c3]⟩ = (0, some (c1, c_atoi c2, c3))) := by
  refine ⟨?_, ?_, ?_⟩
  · intro st lvl msg h
    rw [Hub_Logging_log, if_neg (not_le.mpr h)]
  · intro st app lvl msg h
    simp [Hub_Logging_logWithName, h]
  · intro rid c1 c2 c3
    simp [Hub_Process_log]

/-- Claim C8 witness: the amended statement at the concrete state
(min NORMAL, initialized, replicating) — a below-minimum hub message writes
nothing, while the client LOG path records and writes regardless. -/
theorem C8_amended_min_level_only_in_log_witness :
    Hub_Logging_log ⟨2, true, true, false⟩ 0 (bytes "quiet") = ⟨none, none⟩
    ∧ (Hub_Logging_logWithName ⟨2, true, true, false⟩ (bytes "app") 0 (bytes "hello")).to_file
        = some ⟨bytes "app", 0, bytes "hello"⟩
    ∧ Hub_Process_log ⟨0, [bytes "LOG", bytes "app", bytes "0", bytes "hello"]⟩
        = (0, some (bytes "app", c_atoi (bytes "0"), bytes "hello")) := by
  have h := C8_amended_min_level_only_in_log
  exact ⟨h.1 ⟨2, true, true, false⟩ 0 (bytes "quiet") (by decide),
         h.2.1 ⟨2, true, true, false⟩ (bytes "app") 0 (bytes "hello") rfl,
         h.2.2 0 (bytes "app") (bytes "0") (bytes "hello")⟩

/-- Iterating `Hub_Net_markClientClosed` on an already-CLOSED session view is
the identity: the guard `client->state != CLOSED` fails, so nothing is
enqueued. -/
theorem markClientClosed_iterate_fixed (n : Nat) :
    ∀ x : SessionCloseView, x.state = Hub_Client_State.CLOSED →
      Hub_Net_markClientClosed^[n] x = x := by
  induction n with
  | zero => intro x _; rfl
  | succ n ih =>
      intro x hx
      rw [Function.iterate_succ_apply]
      have hfix : Hub_Net_markClientClosed x = x := by
        simp [Hub_Net_markClientClosed, hx]
      rw [hfix, ih x hx]

/-- Claim C9.  `Hub_Net_markClientClosed` is idempotent: any sequence of at
least one call leaves the session CLOSED; the session is appended to the
closed-clients queue exactly once when it was not yet CLOSED and never
otherwise; and a call on an already-CLOSED session changes nothing. -/
theorem C9_markClientClosed_idempotent (s : SessionCloseView) (n : Nat) (h : 1 ≤ n) :
    (Hub_Net_markClientClosed^[n] s).state = Hub_Client_State.CLOSED
    ∧ (Hub_Net_markClientClosed^[n] s).enqueued
        = s.enqueued + (if s.state = Hub_Client_State.CLOSED then 0 else 1)
    ∧ (s.state = Hub_Client_State.CLOSED → Hub_Net_markClientClosed s = s) := by
  obtain ⟨m, rfl⟩ : ∃ m, n = m + 1 := ⟨n - 1, by omega⟩
  by_cases hs : s.state = Hub_Client_State.CLOSED
  · rw [markClientClosed_iterate_fixed (m + 1) s hs]
    exact ⟨hs, by simp [hs], fun _ => by simp [Hub_Net_markClientClosed, hs]⟩
  · have hstep : Hub_Net_markClientClosed s
        = ⟨Hub_Client_State.CLOSED, s.enqueued + 1⟩ := by
      simp [Hub_Net_markClientClosed, hs]
    rw [Function.iterate_succ_apply, hstep, markClientClosed_iterate_fixed m _ rfl]
    exact ⟨rfl, by simp [hs], fun hc => absurd hc hs⟩

/-- Claim C9 witness: two consecutive calls on a fresh UNAUTHENTICATED
session view leave it CLOSED and enqueued exactly once. -/
theorem C9_markClientClosed_idempotent_witness :
    (Hub_Net_markClientClosed^[2] ⟨Hub_Client_State.UNAUTHENTICATED, 0⟩).state
        = Hub_Client_State.CLOSED
    ∧ (Hub_Net_markClientClosed^[2] ⟨Hub_Client_State.UNAUTHENTICATED, 0⟩).enqueued = 1 := by
  have h := C9_markClientClosed_idempotent ⟨Hub_Client_State.UNAUTHENTICATED, 0⟩ 2 (by decide)
  exact ⟨h.1, h.2.1.trans (by decide)⟩

/-- On a successful set, `Hub_Var_setValue` returns 0 and the store with only
the named variable's value replaced. -/
theorem setValue_success {V : Type} (fmtF : V → CStr) (name : CStr) (value : V)
    (vars : List (Hub_Var V)) (var : Hub_Var V)
    (hlook : varsGet vars name = some var) (hro : var.readonly = false) :
    (Hub_Var_setValue fmtF name value vars).1 = 0
    ∧ (Hub_Var_setValue fmtF name value vars).2.1
        = vars.map (fun w => if w.name = name then { w with value := value } else w) := by
  by_cases hs : var.subscribers.length = 0 <;> simp [Hub_Var_setValue, hlook, hro, hs]

/-- Claim C10.  On a successful `VAR, SET, name, value` frame the dispatcher
returns 0, the calling session's record (state, filter list, subscription
list) is returned unchanged, and the store is the input store with only the
named variable's value replaced: every variable keeps its name, default
value, persistent flag, read-only flag and subscriber list — including the
set variable itself — and every differently-named variable is untouched
entirely.  (Other sessions are out of this code path's reach altogether:
`Hub_Var_setValue` reads only `var_cache` and writes subscriber sockets,
never any client structure — hence the embedding's signature does not even
take them.) -/
theorem C10_successful_set_frame_effect :
    ∀ (V : Type) (pw : Option CStr) (fmtF : V → CStr) (atofF : CStr → V) (cid : Nat)
      (client : Hub_Client) (vars : List (Hub_Var V)) (rid : Nat) (name vstr : CStr)
      (var : Hub_Var V),
      client.state = Hub_Client_State.CONNECTED →
      varsGet vars name = some var →
      var.readonly = false →
      (Hub_Process_process pw fmtF atofF cid client vars
          ⟨rid, [bytes "VAR", bytes "SET", name, vstr]⟩).1 = 0
      ∧ (Hub_Process_process pw fmtF atofF cid client vars
          ⟨rid, [bytes "VAR", bytes "SET", name, vstr]⟩).2.1 = client
      ∧ (Hub_Process_process pw fmtF atofF cid client vars
          ⟨rid, [bytes "VAR", bytes "SET", name, vstr]⟩).2.2.1
          = vars.map (fun w => if w.name = name then { w with value := atofF vstr } else w)
      ∧ (∀ i : Nat, i < vars.length →
          (((Hub_Process_process pw fmtF atofF cid client vars
              ⟨rid, [bytes "VAR", bytes "SET", name, vstr]⟩).2.2.1.getD i var).name
              = (vars.getD i var).name
          ∧ ((Hub_Process_process pw fmtF atofF cid client vars
              ⟨rid, [bytes "VAR", bytes "SET", name, vstr]⟩).2.2.1.getD i var).default_value
              = (vars.getD i var).default_value
          ∧ ((Hub_Process_process pw fmtF atofF cid client vars
              ⟨rid, [bytes "VAR", bytes "SET", name, vstr]⟩).2.2.1.getD i var).persistent
              = (vars.getD i var).persistent
          ∧ ((Hub_Process_process pw fmtF atofF cid client vars
              ⟨rid, [bytes "VAR", bytes "SET", name, vstr]⟩).2.2.1.getD i var).readonly
              = (vars.getD i var).readonly
          ∧ ((Hub_Process_process pw fmtF atofF cid client vars
              ⟨rid, [bytes "VAR", bytes "SET", name, vstr]⟩).2.2.1.getD i var).subscribers
              = (vars.getD i var).subscribers
          ∧ ((vars.getD i var).name ≠ name →
              (Hub_Process_process pw fmtF atofF cid client vars
                ⟨rid, [bytes "VAR", bytes "SET", name, vstr]⟩).2.2.1.getD i var
                = vars.getD i var))) := by
  intro V pw fmtF atofF cid client vars rid name vstr var hstate hlook hro
  have hSG : ¬(bytes "SET" = bytes "GET") := by decide
  have hsv := setValue_success fmtF name (atofF vstr) vars var hlook hro
  have hproc : Hub_Process_process pw fmtF atofF cid client vars
      ⟨rid, [bytes "VAR", bytes "SET", name, vstr]⟩
      = (0, client, (Hub_Var_setValue fmtF name (atofF vstr) vars).2.1,
         (Hub_Var_setValue fmtF name (atofF vstr) vars).2.2) := by
    rw [process_routes_VAR pw fmtF atofF cid client vars rid _ hstate]
    simp [Hub_Process_var, hSG, hsv.1]
  rw [hproc]
  refine ⟨rfl, rfl, hsv.2, ?_⟩
  intro i hi
  rw [hsv.2]
  have h1 : vars[i]? = some vars[i] := List.getElem?_eq_getElem hi
  have hget : ((vars.map (fun w => if w.name = name then { w with value := atofF vstr } else w)).getD i var)
      = (fun w => if w.name = name then { w with value := atofF vstr } else w)
          (vars.getD i var) := by
    simp [List.getD_eq_getElem?_getD, List.getElem?_map, h1]
  rw [hget]
  by_cases hname : (vars.getD i var).name = name
  · rw [List.getD_eq_getElem?_getD] at hname
    simp [hname]
  · rw [List.getD_eq_getElem?_getD] at hname
    simp [hname]

/-- Claim C10 witness: the theorem at a one-variable store holding the
persistent, writable variable "Depth" with subscriber 7 — only the value
changes, the session record comes back unchanged. -/
theorem C10_successful_set_frame_effect_witness :
    (@Hub_Process_process Int none (fun _ => bytes "0") (fun _ => 9) 1
        ⟨Hub_Client_State.CONNECTED, [], []⟩ [⟨bytes "Depth", 1, 1, true, false, [7]⟩]
        ⟨0, [bytes "VAR", bytes "SET", bytes "Depth", bytes "9"]⟩).1 = 0
    ∧ (@Hub_Process_process Int none (fun _ => bytes "0") (fun _ => 9) 1
        ⟨Hub_Client_State.CONNECTED, [], []⟩ [⟨bytes "Depth", 1, 1, true, false, [7]⟩]
        ⟨0, [bytes "VAR", bytes "SET", bytes "Depth", bytes "9"]⟩).2.1
        = ⟨Hub_Client_State.CONNECTED, [], []⟩
    ∧ (@Hub_Process_process Int none (fun _ => bytes "0") (fun _ => 9) 1
        ⟨Hub_Client_State.CONNECTED, [], []⟩ [⟨bytes "Depth", 1, 1, true, false, [7]⟩]
        ⟨0, [bytes "VAR", bytes "SET", bytes "Depth", bytes "9"]⟩).2.2.1
        = [⟨bytes "Depth", 9, 1, true, false, [7]⟩] := by
  have h := C10_successful_set_frame_effect Int none (fun _ => bytes "0") (fun _ => 9) 1
    ⟨Hub_Client_State.CONNECTED, [], []⟩ [⟨bytes "Depth", 1, 1, true, false, [7]⟩] 0
    (bytes "Depth") (bytes "9") ⟨bytes "Depth", 1, 1, true, false, [7]⟩
    rfl (by decide) rfl
  exact ⟨h.1, h.2.1, h.2.2.1.trans (by decide)⟩
